import Mathlib

/-!
Shallow embedding of `src/newsroom/agenda/formatters/ical_formatter.py`.

The formatter turns one agenda/event record (a Python dict) into an
iCalendar document with a single VEVENT.  The embedding models the record
as a structure of typed optional fields (a key that is absent, or present
with value `None`, is `none`); the iCalendar library's `event.add(key, v)`
is modelled as appending a `(key, value)` pair to a property list, in call
order; a raised `KeyError`/`TypeError` that escapes the formatter is
modelled by `Except.error`.  Python truthiness tests (`if d.get(k):`) are
modelled per type: a string is truthy iff non-empty, an integer iff
non-zero, a list iff non-empty, a datetime always.

External collaborators are parameters: `utcnow()` becomes the `now`
argument and `url_for('upload.get_upload', media_id=m, _external=True)`
becomes the `urlFor` argument.  The contact-resolution collaborators
`get_contact_name` / `get_contact_email` (from `newsroom.agenda.contacts`,
outside this fragment) are carried as fields of `Contact` holding their
results, which the spec describes as lookups returning a string or empty.
-/

/-- A timestamp, carried opaquely (the formatter never computes with it).
Python datetimes are always truthy. -/
structure DateTime where
  stamp : Nat
deriving DecidableEq

/-- One entry of the `calendars` list: `{name: string}`. -/
structure CalendarEntry where
  name : Option String
deriving DecidableEq

/-- One entry of `event.files`: `{media: attachment-reference}`. -/
structure MediaFile where
  media : Option String
deriving DecidableEq

/-- The coordinate pair under a location entry's `location` key.  The
source carries floats; the formatter only passes them through, so they are
carried opaquely as integers here (`1.0` is modelled as `1`). -/
structure LocationCoords where
  lat : Option Int
  lon : Option Int
deriving DecidableEq

/-- One entry of the record's `location` list. -/
structure LocationEntry where
  name : Option String
  location : Option LocationCoords
deriving DecidableEq

/-- One entry of `event.event_contact_info`.  `contact_name` and
`contact_email` hold the results of the external collaborators
`get_contact_name` / `get_contact_email` (string or empty, per spec §6);
`public` and `organisation` are fields of the contact record itself. -/
structure Contact where
  public : Option Bool
  organisation : Option String
  contact_name : Option String
  contact_email : Option String
deriving DecidableEq

/-- The `event.dates.recurring_rule` mapping. -/
structure RecurringRule where
  frequency : Option String
  count : Option Nat
  interval : Option Nat
  until_ : Option DateTime
deriving DecidableEq

/-- The record's `dates` sub-object (`end` is a Lean keyword, hence
`end_`). -/
structure Dates where
  start : Option DateTime
  end_ : Option DateTime
deriving DecidableEq

/-- The nested `dates` sub-object of the `event` sub-object (only its
`recurring_rule` key is read by the formatter). -/
structure EventDates where
  recurring_rule : Option RecurringRule
deriving DecidableEq

/-- The record's `event` sub-object. -/
structure EventInfo where
  guid : Option String
  dates : Option EventDates
  files : Option (List MediaFile)
  links : Option (List String)
  event_contact_info : Option (List Contact)
deriving DecidableEq

/-- The input agenda/event record, with exactly the fields the formatter
reads. -/
structure EventRecord where
  guid : Option String
  _id : Option String
  name : Option String
  definition_long : Option String
  ednote : Option String
  priority : Option Int
  calendars : Option (List CalendarEntry)
  dates : Option Dates
  event : Option EventInfo
  location : Option (List LocationEntry)
deriving DecidableEq

/-- The empty dict `{}` used as default by `item.get('event', {})`. -/
def emptyEventInfo : EventInfo :=
  { guid := none, dates := none, files := none, links := none, event_contact_info := none }

/-- The empty dict `{}` used as default by `item.get('dates', {})`. -/
def emptyDates : Dates := { start := none, end_ := none }

/-- Python truthiness of an optional list (`if item.get('location'):`). -/
def truthyList {α : Type} : Option (List α) → Bool
  | some l => !l.isEmpty
  | none => false

/-- Python `str(x)` on an optional string: `None` prints as `"None"`
(used by `'%s.ical' % guid(event)`). -/
def pyStr : Option String → String
  | some s => s
  | none => "None"

/-- Python `sep.join(parts)`. -/
def pyJoin (sep : String) : List String → String
  | [] => ""
  | s :: ss => ss.foldl (fun acc t => acc ++ sep ++ t) s

/-- `guid(item)`: `item.get('guid', item.get('event', {}).get('guid',
item.get('_id')))`.  A chain of `.get` calls with defaults; when none of
the three keys exist the result is Python `None` (`Option.none`). -/
def guid (item : EventRecord) : Option String :=
  (item.guid).orElse fun _ =>
    ((item.event.getD emptyEventInfo).guid).orElse fun _ => item._id

/-- The possible exceptions escaping the formatter, under the spec's
names: `KeyError` on a required field becomes `missingRequiredField`, the
`TypeError` from iterating a missing `event_contact_info` becomes
`missingField`.  `missingIdentifier` is the error kind the spec assigns to
`resolveGuid`; the source never raises it (`guid` returns `None` instead),
so no code path below produces it. -/
inductive FormatError where
  | missingIdentifier : FormatError
  | missingRequiredField : String → FormatError
  | missingField : String → FormatError
deriving DecidableEq

/-- The RRULE keyword mapping built by `get_rrule_kwargs` (`until` is a
Lean keyword, hence `until_`). -/
structure RRuleKwargs where
  freq : String
  count : Option Nat
  interval : Option Nat
  until_ : Option DateTime
deriving DecidableEq

/-- `get_rrule_kwargs(rrule)`.  `rrule['frequency']` raises `KeyError`
(modelled as `Except.error` carrying the missing key) when absent; the
three optional parameters are copied only when truthy (`if
rrule.get('count'):` is false for an absent key and for `0`; a datetime
`until` is always truthy when present). -/
def get_rrule_kwargs (rrule : RecurringRule) : Except String RRuleKwargs :=
  match rrule.frequency with
  | none => Except.error "frequency"
  | some f =>
    let kwargs : RRuleKwargs := { freq := f, count := none, interval := none, until_ := none }
    let kwargs := match rrule.count with
      | some n => if n = 0 then kwargs else { kwargs with count := some n }
      | none => kwargs
    let kwargs := match rrule.interval with
      | some n => if n = 0 then kwargs else { kwargs with interval := some n }
      | none => kwargs
    let kwargs := match rrule.until_ with
      | some d => { kwargs with until_ := some d }
      | none => kwargs
    Except.ok kwargs

/-- The traversal `item['event']['dates']['recurring_rule']` inside the
`try:` block of `format_event`; each missing key raises `KeyError`
(modelled as `Except.error` carrying the key). -/
def recurring_rule_lookup (item : EventRecord) : Except String RecurringRule :=
  match item.event with
  | none => Except.error "event"
  | some ev =>
    match ev.dates with
    | none => Except.error "dates"
    | some d =>
      match d.recurring_rule with
      | none => Except.error "recurring_rule"
      | some r => Except.ok r

/-- A value passed to `event.add`. -/
inductive PropValue where
  | null : PropValue
  | str : String → PropValue
  | int : Int → PropValue
  | date : DateTime → PropValue
  | rruleVal : RRuleKwargs → PropValue
  | geoPair : Int → Int → PropValue
deriving DecidableEq

/-- One `event.add(key, value)` call, recorded in order. -/
abbrev ICalProp := String × PropValue

/-- The VEVENT component: the ordered list of added properties. -/
structure ICalEvent where
  props : List ICalProp
deriving DecidableEq

/-- The calendar container with its two headers. -/
structure ICalCalendar where
  version : String
  prodid : String
  components : List ICalEvent
deriving DecidableEq

/-- The value given to `event.add('uid', guid(item))`: `guid` may return
Python `None`, which is still passed to `add`. -/
def uidVal : Option String → PropValue
  | some s => PropValue.str s
  | none => PropValue.null

/-- `if item.get(k): event.add(key, item[k])` for a string field. -/
def strIf (key : String) : Option String → List ICalProp
  | some s => if s = "" then [] else [(key, PropValue.str s)]
  | none => []

/-- `if item.get(k): event.add(key, item[k])` for an integer field. -/
def intIf (key : String) : Option Int → List ICalProp
  | some n => if n = 0 then [] else [(key, PropValue.int n)]
  | none => []

/-- `if d.get(k): event.add(key, d[k])` for a datetime field (a present
datetime is always truthy). -/
def dateIf (key : String) : Option DateTime → List ICalProp
  | some d => [(key, PropValue.date d)]
  | none => []

/-- The `try: rrule = item['event']['dates']['recurring_rule'];
event.add('rrule', get_rrule_kwargs(rrule)) except KeyError: pass` block:
a `KeyError` raised by the traversal or inside `get_rrule_kwargs` is
caught and adds nothing. -/
def rrule_section (item : EventRecord) : List ICalProp :=
  match (recurring_rule_lookup item).bind get_rrule_kwargs with
  | Except.ok k => [("rrule", PropValue.rruleVal k)]
  | Except.error _ => []

/-- One iteration of the attachments loop: `if media.get('media'):
event.add('attach', url_for(..., media_id=media['media'], ...))`. -/
def attach_entry (urlFor : String → String) (media : MediaFile) : List ICalProp :=
  match media.media with
  | some mid => if mid = "" then [] else [("attach", PropValue.str (urlFor mid))]
  | none => []

/-- The `try: event.add('geo', (loc['location']['lat'],
loc['location']['lon'])) except KeyError: pass` block of one location
iteration. -/
def geo_entry (loc : LocationEntry) : List ICalProp :=
  match loc.location with
  | some c =>
    match c.lat, c.lon with
    | some la, some lo => [("geo", PropValue.geoPair la lo)]
    | _, _ => []
  | none => []

/-- One iteration of the locations loop: the name (when truthy) and then
the guarded coordinate pair. -/
def location_entry (loc : LocationEntry) : List ICalProp :=
  strIf "location" loc.name ++ geo_entry loc

/-- The inline contact string of `format_event`: `', '.join(filter(None,
[get_contact_name(contact), contact.get('organisation'),
get_contact_email(contact)]))`; `filter(None, ...)` drops `None` and empty
strings. -/
def format_contact (c : Contact) : String :=
  pyJoin ", " (([c.contact_name, c.organisation, c.contact_email].filterMap id).filter
    (fun s => s ≠ ""))

/-- One iteration of the contacts loop: `if contact.get('public'):
event.add('contact', ...)`.  The property is added for every public
contact, even when the joined string is empty. -/
def contact_entry (c : Contact) : List ICalProp :=
  if c.public.getD false then [("contact", PropValue.str (format_contact c))] else []

namespace iCalFormatter

/-- `iCalFormatter.VERSION`. -/
def VERSION : String := "2.0"

/-- `iCalFormatter.PRODID`. -/
def PRODID : String := "Newshub"

/-- `iCalFormatter.format_filename`: `'%s.ical' % guid(event)`. -/
def format_filename (event : EventRecord) : String := pyStr (guid event) ++ ".ical"

/-- `iCalFormatter.format_event`, line by line.  Properties are appended
in call order; the three statements that can raise (`item['name']`,
`dates['start']`, iterating `...get('event_contact_info')` when it is
`None`) become the three `Except.error` branches, at the same program
points. -/
def format_event (now : DateTime) (urlFor : String → String) (item : EventRecord) :
    Except FormatError ICalEvent :=
  let props : List ICalProp := [("uid", uidVal (guid item)), ("dtstamp", PropValue.date now)]
  match item.name with
  | none => Except.error (FormatError.missingRequiredField "name")
  | some nm =>
    let props := props ++ [("summary", PropValue.str nm)]
    let props := props ++ strIf "description" item.definition_long
    let props := props ++ strIf "comment" item.ednote
    let props := props ++ intIf "priority" item.priority
    let props := (item.calendars.getD []).foldl (fun ps c => ps ++ strIf "categories" c.name) props
    let dates := item.dates.getD emptyDates
    match dates.start with
    | none => Except.error (FormatError.missingRequiredField "start")
    | some st =>
      let props := props ++ [("dtstart", PropValue.date st)]
      let props := props ++ dateIf "dtend" dates.end_
      let props := props ++ rrule_section item
      let props := ((item.event.getD emptyEventInfo).files.getD []).foldl
        (fun ps m => ps ++ attach_entry urlFor m) props
      let props := if truthyList item.location then
          (item.location.getD []).foldl (fun ps loc => ps ++ location_entry loc) props
        else props
      let props := ((item.event.getD emptyEventInfo).links.getD []).foldl
        (fun ps l => ps ++ [("url", PropValue.str l)]) props
      match (item.event.getD emptyEventInfo).event_contact_info with
      | none => Except.error (FormatError.missingField "event_contact_info")
      | some contacts =>
        let props := contacts.foldl (fun ps c => ps ++ contact_entry c) props
        Except.ok { props := props }

/-- `iCalFormatter.format_item`: build the calendar, set the two headers,
add the single event (whose exception, if any, propagates before
`to_ical()` runs, so an error yields no document at all). -/
def format_item (now : DateTime) (urlFor : String → String) (item : EventRecord) :
    Except FormatError ICalCalendar :=
  match format_event now urlFor item with
  | Except.error e => Except.error e
  | Except.ok ev => Except.ok { version := VERSION, prodid := PRODID, components := [ev] }

end iCalFormatter

/-- A record with every field absent, used as a base for concrete
instances below. -/
def blankRecord : EventRecord :=
  { guid := none, _id := none, name := none, definition_long := none, ednote := none,
    priority := none, calendars := none, dates := none, event := none, location := none }

/-- The full property list of a successfully formatted event, given the
witnesses of the three fallible lookups.  Each `++` component is the
contribution of one source section of `format_event`, in program order. -/
def event_props (now : DateTime) (urlFor : String → String) (item : EventRecord)
    (nm : String) (st : DateTime) (contacts : List Contact) : List ICalProp :=
  [("uid", uidVal (guid item)), ("dtstamp", PropValue.date now), ("summary", PropValue.str nm)]
  ++ strIf "description" item.definition_long
  ++ strIf "comment" item.ednote
  ++ intIf "priority" item.priority
  ++ (item.calendars.getD []).flatMap (fun c => strIf "categories" c.name)
  ++ [("dtstart", PropValue.date st)]
  ++ dateIf "dtend" (item.dates.getD emptyDates).end_
  ++ rrule_section item
  ++ ((item.event.getD emptyEventInfo).files.getD []).flatMap (attach_entry urlFor)
  ++ (item.location.getD []).flatMap location_entry
  ++ ((item.event.getD emptyEventInfo).links.getD []).flatMap
      (fun l => [("url", PropValue.str l)])
  ++ contacts.flatMap contact_entry

/-- The property list of a formatting result; an error yields no
properties at all. -/
def emitted_props : Except FormatError ICalEvent → List ICalProp
  | Except.ok ev => ev.props
  | Except.error _ => []

/-- A fixed formatting time for concrete instances. -/
def dt0 : DateTime := { stamp := 0 }

/-- A fixed event start time for concrete instances. -/
def dt1 : DateTime := { stamp := 20180501 }

/-- A concrete attachment-URL collaborator for witnesses. -/
def idUrl : String → String := fun mid => "https://example.com/assets/" ++ mid

/-- A record with both required fields, an `event` sub-object that lacks
`event_contact_info`. -/
def recC3 : EventRecord :=
  { blankRecord with
    name := some "Board meeting",
    dates := some { start := some dt1, end_ := none },
    event := some emptyEventInfo }

/-- A public contact with no name, organisation or email. -/
def emptyPublicContact : Contact :=
  { public := some true, organisation := none, contact_name := none, contact_email := none }

/-- A record with an empty link string and an all-empty public contact. -/
def recC4 : EventRecord :=
  { blankRecord with
    name := some "Launch",
    dates := some { start := some dt1, end_ := none },
    event := some { emptyEventInfo with
      links := some [""],
                    event_contact_info := some [emptyPublicContact] } }

/-- The event component produced for `recC4`. -/
def evC4 : ICalEvent :=
  { props := event_props dt0 idUrl recC4 "Launch" dt1 [emptyPublicContact] }

/-- The recurrence mapping of the spec's example: frequency DAILY, count
5, nothing else. -/
def rrDaily5 : RecurringRule :=
  { frequency := some "DAILY", count := some 5, interval := none, until_ := none }

/-- A recurrence mapping whose `count` is present but zero. -/
def rrDaily0 : RecurringRule :=
  { frequency := some "DAILY", count := some 0, interval := none, until_ := none }

/-- A record whose `event.dates` exists but has no `recurring_rule`. -/
def recC6 : EventRecord :=
  { blankRecord with
    name := some "Weekly sync",
    dates := some { start := some dt1, end_ := none },
    event := some { emptyEventInfo with
      dates := some { recurring_rule := none },
                    event_contact_info := some [] } }

/-- The public contact of the spec's CONTACT example: name Jane Doe,
empty organisation, email. -/
def janeDoe : Contact :=
  { public := some true, organisation := some "", contact_name := some "Jane Doe",
    contact_email := some "jane@x.com" }

/-- A record with one location named HQ carrying only a latitude. -/
def recC8 : EventRecord :=
  { blankRecord with
    name := some "Open day",
    dates := some { start := some dt1, end_ := none },
    location := some [{ name := some "HQ", location := some { lat := some 1, lon := none } }],
    event := some { emptyEventInfo with
      event_contact_info := some [] } }

/-- A minimal record on which formatting succeeds. -/
def okRecord : EventRecord :=
  { blankRecord with
    name := some "Concert",
    dates := some { start := some dt1, end_ := none },
    event := some { emptyEventInfo with
      event_contact_info := some [] } }

/-- A recurrence mapping that lacks `frequency` but has a `count`. -/
def ruleNoFreq : RecurringRule :=
  { frequency := none, count := some 3, interval := none, until_ := none }

/-- A record whose `event.dates.recurring_rule` path fully resolves but
whose rule lacks `frequency`. -/
def recC10 : EventRecord :=
  { blankRecord with
    name := some "Standup",
    dates := some { start := some dt1, end_ := none },
    event := some { emptyEventInfo with
      dates := some { recurring_rule := some ruleNoFreq },
      event_contact_info := some [] } }

/-- The event component produced for `recC8`. -/
def evC8 : ICalEvent :=
  { props := event_props dt0 idUrl recC8 "Open day" dt1 [] }

/-- The calendar produced for `okRecord`. -/
def calOk : ICalCalendar :=
  { version := "2.0", prodid := "Newshub",
    components := [{ props := event_props dt0 idUrl okRecord "Concert" dt1 [] }] }

/-- A loop that appends a per-element delta is a single append of the
concatenated deltas. -/
theorem foldl_append_eq {α β : Type} (f : α → List β) : ∀ (l : List α) (init : List β),
    l.foldl (fun acc a => acc ++ f a) init = init ++ l.flatMap f := by
  intro l
  induction l with
  | nil => intro init; simp
  | cons a t ih => intro init; simp [List.foldl_cons, ih]

/-- When `name`, `dates.start` and `event_contact_info` are all present,
`format_event` succeeds and its property list is `event_props`. -/
theorem format_event_eq_ok (now : DateTime) (urlFor : String → String) (item : EventRecord)
    (nm : String) (st : DateTime) (contacts : List Contact)
    (hn : item.name = some nm)
    (hs : (item.dates.getD emptyDates).start = some st)
    (hc : (item.event.getD emptyEventInfo).event_contact_info = some contacts) :
    iCalFormatter.format_event now urlFor item
      = Except.ok { props := event_props now urlFor item nm st contacts } := by
  rcases hLoc : item.location with _ | l
  · simp only [iCalFormatter.format_event, event_props, hn, hs, hc, hLoc, foldl_append_eq,
      truthyList, Option.getD_none, Option.getD_some]
    simp [List.append_assoc]
  · rcases l with _ | ⟨a, t⟩ <;>
      simp only [iCalFormatter.format_event, event_props, hn, hs, hc, hLoc, foldl_append_eq,
        truthyList, Option.getD_none, Option.getD_some, List.isEmpty] <;>
      simp [List.append_assoc]

/-- A record without `name` fails at `event.add('summary', item['name'])`. -/
theorem format_event_name_missing (now : DateTime) (urlFor : String → String)
    (item : EventRecord) (hn : item.name = none) :
    iCalFormatter.format_event now urlFor item
      = Except.error (FormatError.missingRequiredField "name") := by
  simp [iCalFormatter.format_event, hn]

/-- A record with `name` but without `dates.start` fails at
`event.add('dtstart', dates['start'])`. -/
theorem format_event_start_missing (now : DateTime) (urlFor : String → String)
    (item : EventRecord) (nm : String) (hn : item.name = some nm)
    (hs : (item.dates.getD emptyDates).start = none) :
    iCalFormatter.format_event now urlFor item
      = Except.error (FormatError.missingRequiredField "start") := by
  simp [iCalFormatter.format_event, hn, hs]

/-- A record past both required fields but with no `event_contact_info`
fails when the contacts loop iterates over `None`. -/
theorem format_event_contacts_missing (now : DateTime) (urlFor : String → String)
    (item : EventRecord) (nm : String) (st : DateTime) (hn : item.name = some nm)
    (hs : (item.dates.getD emptyDates).start = some st)
    (hc : (item.event.getD emptyEventInfo).event_contact_info = none) :
    iCalFormatter.format_event now urlFor item
      = Except.error (FormatError.missingField "event_contact_info") := by
  simp [iCalFormatter.format_event, hn, hs, hc]

/-- Inversion: a successful `format_event` pins down the three fallible
lookups and the shape of the output. -/
theorem format_event_ok_inv {now : DateTime} {urlFor : String → String} {item : EventRecord}
    {ev : ICalEvent} (h : iCalFormatter.format_event now urlFor item = Except.ok ev) :
    ∃ nm st contacts, item.name = some nm ∧ (item.dates.getD emptyDates).start = some st ∧
      (item.event.getD emptyEventInfo).event_contact_info = some contacts ∧
      ev = { props := event_props now urlFor item nm st contacts } := by
  rcases hn : item.name with _ | nm
  · rw [format_event_name_missing now urlFor item hn] at h; exact absurd h (by simp)
  rcases hs : (item.dates.getD emptyDates).start with _ | st
  · rw [format_event_start_missing now urlFor item nm hn hs] at h; exact absurd h (by simp)
  rcases hc : (item.event.getD emptyEventInfo).event_contact_info with _ | contacts
  · rw [format_event_contacts_missing now urlFor item nm st hn hs hc] at h
    exact absurd h (by simp)
  rw [format_event_eq_ok now urlFor item nm st contacts hn hs hc] at h
  exact ⟨nm, st, contacts, rfl, rfl, rfl, (Except.ok.inj h).symm⟩

/-- Membership in a truthiness-guarded string property. -/
theorem mem_strIf {key k : String} {v : PropValue} {o : Option String} :
    (k, v) ∈ strIf key o ↔ ∃ s, o = some s ∧ s ≠ "" ∧ k = key ∧ v = PropValue.str s := by
  cases o with
  | none => simp [strIf]
  | some s => by_cases hs : s = "" <;> simp [strIf, hs]

/-- Membership in a truthiness-guarded integer property. -/
theorem mem_intIf {key k : String} {v : PropValue} {o : Option Int} :
    (k, v) ∈ intIf key o ↔ ∃ n, o = some n ∧ n ≠ 0 ∧ k = key ∧ v = PropValue.int n := by
  cases o with
  | none => simp [intIf]
  | some n => by_cases hn : n = 0 <;> simp [intIf, hn]

/-- Membership in a guarded datetime property. -/
theorem mem_dateIf {key k : String} {v : PropValue} {o : Option DateTime} :
    (k, v) ∈ dateIf key o ↔ ∃ d, o = some d ∧ k = key ∧ v = PropValue.date d := by
  cases o <;> simp [dateIf]

/-- Membership in the recurrence section. -/
theorem mem_rrule_section {item : EventRecord} {k : String} {v : PropValue} :
    (k, v) ∈ rrule_section item ↔
      ∃ kw, (recurring_rule_lookup item).bind get_rrule_kwargs = Except.ok kw ∧
        k = "rrule" ∧ v = PropValue.rruleVal kw := by
  unfold rrule_section
  rcases h : (recurring_rule_lookup item).bind get_rrule_kwargs with e | kw <;> simp

/-- Membership in one attachment entry. -/
theorem mem_attach_entry {urlFor : String → String} {m : MediaFile} {k : String}
    {v : PropValue} :
    (k, v) ∈ attach_entry urlFor m ↔
      ∃ mid, m.media = some mid ∧ mid ≠ "" ∧ k = "attach" ∧ v = PropValue.str (urlFor mid) := by
  unfold attach_entry
  rcases hm : m.media with _ | mid
  · simp
  · by_cases hmid : mid = "" <;> simp [hmid]

/-- Membership in the guarded coordinate pair of one location entry. -/
theorem mem_geo_entry {loc : LocationEntry} {k : String} {v : PropValue} :
    (k, v) ∈ geo_entry loc ↔
      ∃ c la lo, loc.location = some c ∧ c.lat = some la ∧ c.lon = some lo ∧
        k = "geo" ∧ v = PropValue.geoPair la lo := by
  unfold geo_entry
  rcases hc : loc.location with _ | c
  · simp
  · rcases hla : c.lat with _ | la <;> rcases hlo : c.lon with _ | lo <;> simp [hla, hlo]

/-- Membership in one location entry: the name part or the coordinate
part. -/
theorem mem_location_entry {loc : LocationEntry} {k : String} {v : PropValue} :
    (k, v) ∈ location_entry loc ↔
      ((∃ s, loc.name = some s ∧ s ≠ "" ∧ k = "location" ∧ v = PropValue.str s) ∨
       (∃ c la lo, loc.location = some c ∧ c.lat = some la ∧ c.lon = some lo ∧
         k = "geo" ∧ v = PropValue.geoPair la lo)) := by
  simp [location_entry, mem_strIf, mem_geo_entry]

/-- Membership in one contact entry. -/
theorem mem_contact_entry {c : Contact} {k : String} {v : PropValue} :
    (k, v) ∈ contact_entry c ↔
      c.public.getD false = true ∧ k = "contact" ∧ v = PropValue.str (format_contact c) := by
  unfold contact_entry
  by_cases hp : c.public.getD false <;> simp [hp]

/-- Full characterization of the properties of a successful event: one
disjunct per `event.add` site, in program order. -/
theorem mem_event_props_iff {now : DateTime} {urlFor : String → String} {item : EventRecord}
    {nm : String} {st : DateTime} {contacts : List Contact} {k : String} {v : PropValue} :
    (k, v) ∈ event_props now urlFor item nm st contacts ↔
      ((k = "uid" ∧ v = uidVal (guid item)) ∨
       (k = "dtstamp" ∧ v = PropValue.date now) ∨
       (k = "summary" ∧ v = PropValue.str nm) ∨
       (∃ s, item.definition_long = some s ∧ s ≠ "" ∧ k = "description" ∧ v = PropValue.str s) ∨
       (∃ s, item.ednote = some s ∧ s ≠ "" ∧ k = "comment" ∧ v = PropValue.str s) ∨
       (∃ n, item.priority = some n ∧ n ≠ 0 ∧ k = "priority" ∧ v = PropValue.int n) ∨
       (∃ c ∈ item.calendars.getD [],
         ∃ s, c.name = some s ∧ s ≠ "" ∧ k = "categories" ∧ v = PropValue.str s) ∨
       (k = "dtstart" ∧ v = PropValue.date st) ∨
       (∃ d, (item.dates.getD emptyDates).end_ = some d ∧ k = "dtend" ∧ v = PropValue.date d) ∨
       (∃ kw, (recurring_rule_lookup item).bind get_rrule_kwargs = Except.ok kw ∧
         k = "rrule" ∧ v = PropValue.rruleVal kw) ∨
       (∃ m ∈ (item.event.getD emptyEventInfo).files.getD [],
         ∃ mid, m.media = some mid ∧ mid ≠ "" ∧ k = "attach" ∧ v = PropValue.str (urlFor mid)) ∨
       (∃ loc ∈ item.location.getD [],
         ∃ s, loc.name = some s ∧ s ≠ "" ∧ k = "location" ∧ v = PropValue.str s) ∨
       (∃ loc ∈ item.location.getD [],
         ∃ c la lo, loc.location = some c ∧ c.lat = some la ∧ c.lon = some lo ∧
           k = "geo" ∧ v = PropValue.geoPair la lo) ∨
       (∃ l ∈ (item.event.getD emptyEventInfo).links.getD [], k = "url" ∧ v = PropValue.str l) ∨
       (∃ c ∈ contacts, c.public.getD false = true ∧ k = "contact" ∧
         v = PropValue.str (format_contact c))) := by
  simp only [event_props, List.mem_append, List.mem_flatMap, List.mem_cons, List.mem_singleton,
    List.not_mem_nil, Prod.mk.injEq, mem_strIf, mem_intIf, mem_dateIf, mem_rrule_section,
    mem_attach_entry, mem_location_entry, mem_contact_entry, and_or_left, exists_or, or_assoc,
    and_false, false_and, exists_false, false_or, or_false]

/-- An exception raised by `format_event` propagates out of `format_item`
before serialization, so no document is produced. -/
theorem format_item_error {now : DateTime} {urlFor : String → String} {item : EventRecord}
    {e : FormatError} (h : iCalFormatter.format_event now urlFor item = Except.error e) :
    iCalFormatter.format_item now urlFor item = Except.error e := by
  simp [iCalFormatter.format_item, h]

/-- Success inversion for `format_item`: the calendar is the two fixed
headers around the single formatted event. -/
theorem format_item_ok_inv {now : DateTime} {urlFor : String → String} {item : EventRecord}
    {cal : ICalCalendar} (h : iCalFormatter.format_item now urlFor item = Except.ok cal) :
    ∃ ev, iCalFormatter.format_event now urlFor item = Except.ok ev ∧
      cal = { version := iCalFormatter.VERSION, prodid := iCalFormatter.PRODID,
              components := [ev] } := by
  rcases he : iCalFormatter.format_event now urlFor item with e | ev
  · rw [format_item_error he] at h; exact absurd h (by simp)
  · have hok : iCalFormatter.format_item now urlFor item = Except.ok
        { version := iCalFormatter.VERSION, prodid := iCalFormatter.PRODID,
          components := [ev] } := by
      simp [iCalFormatter.format_item, he]
    rw [hok] at h
    exact ⟨ev, rfl, (Except.ok.inj h).symm⟩

/-- C1: for every record lacking `name` or lacking `dates.start`,
`format_event` (and hence `format_item`) fails with `MissingRequiredField`
— at the summary step for a missing name, at the dtstart step for a
missing start — and no document is produced (`format_item` returns the
error instead of a calendar). -/
theorem c1_missing_required_field_fails (now : DateTime) (urlFor : String → String)
    (item : EventRecord)
    (h : item.name = none ∨ (item.dates.getD emptyDates).start = none) :
    (iCalFormatter.format_event now urlFor item
        = Except.error (FormatError.missingRequiredField "name") ∧
      iCalFormatter.format_item now urlFor item
        = Except.error (FormatError.missingRequiredField "name")) ∨
    (iCalFormatter.format_event now urlFor item
        = Except.error (FormatError.missingRequiredField "start") ∧
      iCalFormatter.format_item now urlFor item
        = Except.error (FormatError.missingRequiredField "start")) := by
  rcases hn : item.name with _ | nm
  · have he := format_event_name_missing now urlFor item hn
    exact Or.inl ⟨he, format_item_error he⟩
  · rcases h with h | h
    · rw [hn] at h; exact absurd h (by simp)
    · have he := format_event_start_missing now urlFor item nm hn h
      exact Or.inr ⟨he, format_item_error he⟩

/-- C1 witness: the all-absent record lacks `name` and indeed fails. -/
theorem c1_witness :
    (iCalFormatter.format_event dt0 idUrl blankRecord
        = Except.error (FormatError.missingRequiredField "name") ∧
      iCalFormatter.format_item dt0 idUrl blankRecord
        = Except.error (FormatError.missingRequiredField "name")) ∨
    (iCalFormatter.format_event dt0 idUrl blankRecord
        = Except.error (FormatError.missingRequiredField "start") ∧
      iCalFormatter.format_item dt0 idUrl blankRecord
        = Except.error (FormatError.missingRequiredField "start")) :=
  c1_missing_required_field_fails dt0 idUrl blankRecord (Or.inl rfl)

/-- C2 counterexample: on a record where `guid`, `event.guid` and `_id`
are all absent, the claim says `resolveGuid` fails with
`MissingIdentifier`; the code instead returns Python `None` and
`format_filename` happily renders it into `"None.ical"` — no failure
occurs. -/
theorem c2_counterexample_no_identifier_yields_none :
    guid blankRecord = none ∧ iCalFormatter.format_filename blankRecord = "None.ical" :=
  ⟨rfl, rfl⟩

/-- C2 amended: `guid` follows the priority chain — own `guid` first,
then the `event` sub-object's `guid`, then `_id` — and when the first two
are absent it returns `_id` verbatim, hence `none` (no `MissingIdentifier`
error) when `_id` is also absent. -/
theorem c2_amended_guid_priority_chain (item : EventRecord) :
    (∀ g, item.guid = some g → guid item = some g) ∧
    (item.guid = none → ∀ ev g, item.event = some ev → ev.guid = some g →
      guid item = some g) ∧
    (item.guid = none → (item.event.getD emptyEventInfo).guid = none →
      guid item = item._id) := by
  refine ⟨?_, ?_, ?_⟩
  · intro g hg; simp [guid, hg, Option.orElse]
  · intro h1 ev g h2 h3; simp [guid, h1, h2, h3, Option.orElse]
  · intro h1 h2; simp [guid, h1, h2, Option.orElse]

/-- C2 witness: on the all-absent record the chain bottoms out at `_id`. -/
theorem c2_amended_witness : guid blankRecord = blankRecord._id :=
  (c2_amended_guid_priority_chain blankRecord).2.2 rfl rfl

/-- C3: a record with `name` and `dates.start` present whose `event`
sub-object lacks `event_contact_info` fails with `MissingField` at the
contacts step — the loop iterates over `None` — instead of skipping it. -/
theorem c3_missing_contact_info_fails (now : DateTime) (urlFor : String → String)
    (item : EventRecord) (nm : String) (st : DateTime)
    (hn : item.name = some nm) (hs : (item.dates.getD emptyDates).start = some st)
    (hc : (item.event.getD emptyEventInfo).event_contact_info = none) :
    iCalFormatter.format_event now urlFor item
      = Except.error (FormatError.missingField "event_contact_info") :=
  format_event_contacts_missing now urlFor item nm st hn hs hc

/-- C3 witness: a concrete record with both required fields and an
`event` sub-object with no contact-info list. -/
theorem c3_witness :
    iCalFormatter.format_event dt0 idUrl recC3
      = Except.error (FormatError.missingField "event_contact_info") :=
  c3_missing_contact_info_fails dt0 idUrl recC3 "Board meeting" dt1 rfl rfl rfl

/-- C5 counterexample: a `count` that is present but `0` is dropped from
the output by Python truthiness (`if rrule.get('count'):`), refuting "a
parameter that is present in the source is included with its value". -/
theorem c5_counterexample_zero_count_dropped :
    rrDaily0.count = some 0 ∧
    get_rrule_kwargs rrDaily0
      = Except.ok { freq := "DAILY", count := none, interval := none, until_ := none } :=
  ⟨rfl, rfl⟩

/-- C5 amended: with `frequency` present the mapping keeps the same four
parameters, except that `count` and `interval` are included exactly when
present and non-zero (their truthy values) and `until` exactly when
present; the claim's DAILY/count-5 example is recovered by the witness. -/
theorem c5_amended_rrule_mapping (r : RecurringRule) (f : String)
    (hf : r.frequency = some f) :
    get_rrule_kwargs r = Except.ok
      { freq := f, count := r.count.filter (fun n => n != 0),
        interval := r.interval.filter (fun n => n != 0), until_ := r.until_ } := by
  rcases r with ⟨rf, rc, ri, ru⟩
  obtain rfl : rf = some f := hf
  rcases rc with _ | n <;> rcases ri with _ | m <;> rcases ru with _ | d <;>
    simp only [get_rrule_kwargs, Option.filter] <;>
    first
      | rfl
      | (by_cases hn : n = 0 <;> by_cases hm : m = 0 <;> simp [hn, hm])
      | (by_cases hn : n = 0 <;> simp [hn])
      | (by_cases hm : m = 0 <;> simp [hm])

/-- C5 witness: the spec example `{"frequency":"DAILY","count":5}` maps
to FREQ=DAILY, COUNT=5 and no INTERVAL or UNTIL. -/
theorem c5_witness :
    get_rrule_kwargs rrDaily5
      = Except.ok { freq := "DAILY", count := some 5, interval := none, until_ := none } := by
  have h := c5_amended_rrule_mapping rrDaily5 "DAILY" rfl
  simpa [rrDaily5, Option.filter] using h

/-- C6: when any key along `event.dates.recurring_rule` is missing, the
`KeyError` is caught: given the fields the other steps need, formatting
still succeeds with the full property list, and no RRULE property is
attached. -/
theorem c6_missing_recurrence_path_skipped (now : DateTime) (urlFor : String → String)
    (item : EventRecord) (e : String) (nm : String) (st : DateTime)
    (contacts : List Contact)
    (hpath : recurring_rule_lookup item = Except.error e)
    (hn : item.name = some nm) (hs : (item.dates.getD emptyDates).start = some st)
    (hc : (item.event.getD emptyEventInfo).event_contact_info = some contacts) :
    iCalFormatter.format_event now urlFor item
      = Except.ok { props := event_props now urlFor item nm st contacts } ∧
    ∀ v, ("rrule", v) ∉ event_props now urlFor item nm st contacts := by
  refine ⟨format_event_eq_ok now urlFor item nm st contacts hn hs hc, ?_⟩
  intro v hv
  rw [mem_event_props_iff] at hv
  simp [hpath, Except.bind] at hv

/-- C6 witness: `recC6` has `event.dates` but no `recurring_rule`; the
lookup raises and is caught, the event is still produced without RRULE. -/
theorem c6_witness :
    iCalFormatter.format_event dt0 idUrl recC6
      = Except.ok { props := event_props dt0 idUrl recC6 "Weekly sync" dt1 [] } ∧
    ("rrule", PropValue.null) ∉ event_props dt0 idUrl recC6 "Weekly sync" dt1 [] := by
  have h := c6_missing_recurrence_path_skipped dt0 idUrl recC6 "recurring_rule"
    "Weekly sync" dt1 [] rfl rfl rfl rfl
  exact ⟨h.1, h.2 PropValue.null⟩

/-- C9: every calendar produced by a successful `format_item` has version
"2.0", producer "Newshub" and exactly one event component, and that
component carries uid, dtstamp, summary and dtstart properties. -/
theorem c9_calendar_invariants (now : DateTime) (urlFor : String → String)
    (item : EventRecord) (cal : ICalCalendar)
    (h : iCalFormatter.format_item now urlFor item = Except.ok cal) :
    cal.version = "2.0" ∧ cal.prodid = "Newshub" ∧
    ∃ ev, cal.components = [ev] ∧
      (∃ v, ("uid", v) ∈ ev.props) ∧ (∃ v, ("dtstamp", v) ∈ ev.props) ∧
      (∃ v, ("summary", v) ∈ ev.props) ∧ (∃ v, ("dtstart", v) ∈ ev.props) := by
  obtain ⟨ev, he, hcal⟩ := format_item_ok_inv h
  obtain ⟨nm, st, contacts, hn, hs, hc, hev⟩ := format_event_ok_inv he
  subst hcal
  subst hev
  refine ⟨rfl, rfl, _, rfl, ?_, ?_, ?_, ?_⟩
  · exact ⟨_, mem_event_props_iff.mpr (Or.inl ⟨rfl, rfl⟩)⟩
  · exact ⟨_, mem_event_props_iff.mpr (Or.inr (Or.inl ⟨rfl, rfl⟩))⟩
  · exact ⟨_, mem_event_props_iff.mpr (Or.inr (Or.inr (Or.inl ⟨rfl, rfl⟩)))⟩
  · exact ⟨_, mem_event_props_iff.mpr (Or.inr (Or.inr (Or.inr (Or.inr (Or.inr (Or.inr
      (Or.inr (Or.inl ⟨rfl, rfl⟩))))))))⟩

/-- C9 witness: the concrete calendar built from `okRecord` has the two
fixed headers. -/
theorem c9_witness : calOk.version = "2.0" ∧ calOk.prodid = "Newshub" :=
  have h := c9_calendar_invariants dt0 idUrl okRecord calOk (by rfl)
  ⟨h.1, h.2.1⟩

/-- C10: when `event.dates.recurring_rule` fully resolves but the rule
lacks `frequency`, the `KeyError` raised inside `get_rrule_kwargs` is
caught by the same `except KeyError` handler: formatting still succeeds
and no RRULE property is attached. -/
theorem c10_missing_frequency_caught (now : DateTime) (urlFor : String → String)
    (item : EventRecord) (r : RecurringRule) (nm : String) (st : DateTime)
    (contacts : List Contact)
    (hr : recurring_rule_lookup item = Except.ok r) (hf : r.frequency = none)
    (hn : item.name = some nm) (hs : (item.dates.getD emptyDates).start = some st)
    (hc : (item.event.getD emptyEventInfo).event_contact_info = some contacts) :
    iCalFormatter.format_event now urlFor item
      = Except.ok { props := event_props now urlFor item nm st contacts } ∧
    ∀ v, ("rrule", v) ∉ event_props now urlFor item nm st contacts := by
  refine ⟨format_event_eq_ok now urlFor item nm st contacts hn hs hc, ?_⟩
  intro v hv
  rw [mem_event_props_iff] at hv
  have hbind : (recurring_rule_lookup item).bind get_rrule_kwargs
      = Except.error "frequency" := by
    rw [hr]; simp [Except.bind, get_rrule_kwargs, hf]
  simp [hbind] at hv

/-- C10 witness: `recC10` has a fully resolving recurring-rule path whose
rule lacks `frequency`; formatting succeeds without RRULE. -/
theorem c10_witness :
    iCalFormatter.format_event dt0 idUrl recC10
      = Except.ok { props := event_props dt0 idUrl recC10 "Standup" dt1 [] } ∧
    ("rrule", PropValue.null) ∉ event_props dt0 idUrl recC10 "Standup" dt1 [] := by
  have h := c10_missing_frequency_caught dt0 idUrl recC10 ruleNoFreq "Standup" dt1 []
    rfl rfl rfl rfl rfl
  exact ⟨h.1, h.2 PropValue.null⟩

/-- Occurrences of the description property in a successful event. -/
theorem props_description_iff {now : DateTime} {urlFor : String → String}
    {item : EventRecord} {ev : ICalEvent}
    (h : iCalFormatter.format_event now urlFor item = Except.ok ev) (v : PropValue) :
    ("description", v) ∈ ev.props ↔
      ∃ s, item.definition_long = some s ∧ s ≠ "" ∧ v = PropValue.str s := by
  obtain ⟨nm, st, contacts, hn, hs, hc, hev⟩ := format_event_ok_inv h
  subst hev
  show ("description", v) ∈ event_props now urlFor item nm st contacts ↔ _
  rw [mem_event_props_iff]
  simp

/-- Occurrences of the comment property in a successful event. -/
theorem props_comment_iff {now : DateTime} {urlFor : String → String}
    {item : EventRecord} {ev : ICalEvent}
    (h : iCalFormatter.format_event now urlFor item = Except.ok ev) (v : PropValue) :
    ("comment", v) ∈ ev.props ↔
      ∃ s, item.ednote = some s ∧ s ≠ "" ∧ v = PropValue.str s := by
  obtain ⟨nm, st, contacts, hn, hs, hc, hev⟩ := format_event_ok_inv h
  subst hev
  show ("comment", v) ∈ event_props now urlFor item nm st contacts ↔ _
  rw [mem_event_props_iff]
  simp

/-- Occurrences of the priority property in a successful event. -/
theorem props_priority_iff {now : DateTime} {urlFor : String → String}
    {item : EventRecord} {ev : ICalEvent}
    (h : iCalFormatter.format_event now urlFor item = Except.ok ev) (v : PropValue) :
    ("priority", v) ∈ ev.props ↔
      ∃ n, item.priority = some n ∧ n ≠ 0 ∧ v = PropValue.int n := by
  obtain ⟨nm, st, contacts, hn, hs, hc, hev⟩ := format_event_ok_inv h
  subst hev
  show ("priority", v) ∈ event_props now urlFor item nm st contacts ↔ _
  rw [mem_event_props_iff]
  simp

/-- Occurrences of the categories property in a successful event. -/
theorem props_categories_iff {now : DateTime} {urlFor : String → String}
    {item : EventRecord} {ev : ICalEvent}
    (h : iCalFormatter.format_event now urlFor item = Except.ok ev) (v : PropValue) :
    ("categories", v) ∈ ev.props ↔
      ∃ c ∈ item.calendars.getD [], ∃ s, c.name = some s ∧ s ≠ "" ∧ v = PropValue.str s := by
  obtain ⟨nm, st, contacts, hn, hs, hc, hev⟩ := format_event_ok_inv h
  subst hev
  show ("categories", v) ∈ event_props now urlFor item nm st contacts ↔ _
  rw [mem_event_props_iff]
  simp

/-- Occurrences of the dtend property in a successful event. -/
theorem props_dtend_iff {now : DateTime} {urlFor : String → String}
    {item : EventRecord} {ev : ICalEvent}
    (h : iCalFormatter.format_event now urlFor item = Except.ok ev) (v : PropValue) :
    ("dtend", v) ∈ ev.props ↔
      ∃ d, (item.dates.getD emptyDates).end_ = some d ∧ v = PropValue.date d := by
  obtain ⟨nm, st, contacts, hn, hs, hc, hev⟩ := format_event_ok_inv h
  subst hev
  show ("dtend", v) ∈ event_props now urlFor item nm st contacts ↔ _
  rw [mem_event_props_iff]
  simp

/-- Occurrences of the rrule property in a successful event. -/
theorem props_rrule_iff {now : DateTime} {urlFor : String → String}
    {item : EventRecord} {ev : ICalEvent}
    (h : iCalFormatter.format_event now urlFor item = Except.ok ev) (v : PropValue) :
    ("rrule", v) ∈ ev.props ↔
      ∃ kw, (recurring_rule_lookup item).bind get_rrule_kwargs = Except.ok kw ∧
        v = PropValue.rruleVal kw := by
  obtain ⟨nm, st, contacts, hn, hs, hc, hev⟩ := format_event_ok_inv h
  subst hev
  show ("rrule", v) ∈ event_props now urlFor item nm st contacts ↔ _
  rw [mem_event_props_iff]
  simp

/-- Occurrences of the attach property in a successful event. -/
theorem props_attach_iff {now : DateTime} {urlFor : String → String}
    {item : EventRecord} {ev : ICalEvent}
    (h : iCalFormatter.format_event now urlFor item = Except.ok ev) (v : PropValue) :
    ("attach", v) ∈ ev.props ↔
      ∃ m ∈ (item.event.getD emptyEventInfo).files.getD [],
        ∃ mid, m.media = some mid ∧ mid ≠ "" ∧ v = PropValue.str (urlFor mid) := by
  obtain ⟨nm, st, contacts, hn, hs, hc, hev⟩ := format_event_ok_inv h
  subst hev
  show ("attach", v) ∈ event_props now urlFor item nm st contacts ↔ _
  rw [mem_event_props_iff]
  simp

/-- Occurrences of the location-name property in a successful event. -/
theorem props_location_iff {now : DateTime} {urlFor : String → String}
    {item : EventRecord} {ev : ICalEvent}
    (h : iCalFormatter.format_event now urlFor item = Except.ok ev) (v : PropValue) :
    ("location", v) ∈ ev.props ↔
      ∃ loc ∈ item.location.getD [], ∃ s, loc.name = some s ∧ s ≠ "" ∧ v = PropValue.str s := by
  obtain ⟨nm, st, contacts, hn, hs, hc, hev⟩ := format_event_ok_inv h
  subst hev
  show ("location", v) ∈ event_props now urlFor item nm st contacts ↔ _
  rw [mem_event_props_iff]
  simp

/-- Occurrences of the geo property in a successful event. -/
theorem props_geo_iff {now : DateTime} {urlFor : String → String}
    {item : EventRecord} {ev : ICalEvent}
    (h : iCalFormatter.format_event now urlFor item = Except.ok ev) (v : PropValue) :
    ("geo", v) ∈ ev.props ↔
      ∃ loc ∈ item.location.getD [], ∃ c la lo, loc.location = some c ∧ c.lat = some la ∧
        c.lon = some lo ∧ v = PropValue.geoPair la lo := by
  obtain ⟨nm, st, contacts, hn, hs, hc, hev⟩ := format_event_ok_inv h
  subst hev
  show ("geo", v) ∈ event_props now urlFor item nm st contacts ↔ _
  rw [mem_event_props_iff]
  simp

/-- Occurrences of the url property in a successful event: one per link,
with no emptiness guard. -/
theorem props_url_iff {now : DateTime} {urlFor : String → String}
    {item : EventRecord} {ev : ICalEvent}
    (h : iCalFormatter.format_event now urlFor item = Except.ok ev) (v : PropValue) :
    ("url", v) ∈ ev.props ↔
      ∃ l ∈ (item.event.getD emptyEventInfo).links.getD [], v = PropValue.str l := by
  obtain ⟨nm, st, contacts, hn, hs, hc, hev⟩ := format_event_ok_inv h
  subst hev
  show ("url", v) ∈ event_props now urlFor item nm st contacts ↔ _
  rw [mem_event_props_iff]
  simp

/-- Occurrences of the contact property in a successful event: one per
public contact, with no emptiness guard on the joined value. -/
theorem props_contact_iff {now : DateTime} {urlFor : String → String}
    {item : EventRecord} {ev : ICalEvent}
    (h : iCalFormatter.format_event now urlFor item = Except.ok ev) (v : PropValue) :
    ("contact", v) ∈ ev.props ↔
      ∃ c ∈ (item.event.getD emptyEventInfo).event_contact_info.getD [],
        c.public.getD false = true ∧ v = PropValue.str (format_contact c) := by
  obtain ⟨nm, st, contacts, hn, hs, hc, hev⟩ := format_event_ok_inv h
  subst hev
  show ("contact", v) ∈ event_props now urlFor item nm st contacts ↔ _
  rw [mem_event_props_iff]
  simp [hc]

/-- C4 counterexample: on `recC4` (one empty link string, one public
contact with no name, organisation or email) formatting succeeds and the
output still contains a URL property with empty value and a CONTACT
property with empty value — `event.add('url', link)` has no truthiness
guard, and the contact property is added for every public contact even
when the joined string is empty, refuting the claim for these two
properties. -/
theorem c4_counterexample_url_contact_emitted_empty :
    ("url", PropValue.str "") ∈ emitted_props (iCalFormatter.format_event dt0 idUrl recC4) ∧
    ("contact", PropValue.str "")
      ∈ emitted_props (iCalFormatter.format_event dt0 idUrl recC4) := by
  decide

/-- C4 amended: in every successful event, description, comment,
priority, categories, dtend, rrule, attach, location and geo are emitted
only when their source data exists and is truthy (non-empty string,
non-zero integer, fully resolving path), exactly as the claim states;
but a URL property is emitted for every link, an empty string included,
and a CONTACT property is emitted for every public contact even when its
joined value is empty. -/
theorem c4_amended_optional_properties (now : DateTime) (urlFor : String → String)
    (item : EventRecord) (ev : ICalEvent)
    (h : iCalFormatter.format_event now urlFor item = Except.ok ev) :
    (∀ v, ("description", v) ∈ ev.props ↔
      ∃ s, item.definition_long = some s ∧ s ≠ "" ∧ v = PropValue.str s) ∧
    (∀ v, ("comment", v) ∈ ev.props ↔
      ∃ s, item.ednote = some s ∧ s ≠ "" ∧ v = PropValue.str s) ∧
    (∀ v, ("priority", v) ∈ ev.props ↔
      ∃ n, item.priority = some n ∧ n ≠ 0 ∧ v = PropValue.int n) ∧
    (∀ v, ("categories", v) ∈ ev.props ↔
      ∃ c ∈ item.calendars.getD [], ∃ s, c.name = some s ∧ s ≠ "" ∧ v = PropValue.str s) ∧
    (∀ v, ("dtend", v) ∈ ev.props ↔
      ∃ d, (item.dates.getD emptyDates).end_ = some d ∧ v = PropValue.date d) ∧
    (∀ v, ("rrule", v) ∈ ev.props ↔
      ∃ kw, (recurring_rule_lookup item).bind get_rrule_kwargs = Except.ok kw ∧
        v = PropValue.rruleVal kw) ∧
    (∀ v, ("attach", v) ∈ ev.props ↔
      ∃ m ∈ (item.event.getD emptyEventInfo).files.getD [],
        ∃ mid, m.media = some mid ∧ mid ≠ "" ∧ v = PropValue.str (urlFor mid)) ∧
    (∀ v, ("location", v) ∈ ev.props ↔
      ∃ loc ∈ item.location.getD [],
        ∃ s, loc.name = some s ∧ s ≠ "" ∧ v = PropValue.str s) ∧
    (∀ v, ("geo", v) ∈ ev.props ↔
      ∃ loc ∈ item.location.getD [], ∃ c la lo, loc.location = some c ∧ c.lat = some la ∧
        c.lon = some lo ∧ v = PropValue.geoPair la lo) ∧
    (∀ v, ("url", v) ∈ ev.props ↔
      ∃ l ∈ (item.event.getD emptyEventInfo).links.getD [], v = PropValue.str l) ∧
    (∀ v, ("contact", v) ∈ ev.props ↔
      ∃ c ∈ (item.event.getD emptyEventInfo).event_contact_info.getD [],
        c.public.getD false = true ∧ v = PropValue.str (format_contact c)) :=
  ⟨props_description_iff h, props_comment_iff h, props_priority_iff h,
   props_categories_iff h, props_dtend_iff h, props_rrule_iff h, props_attach_iff h,
   props_location_iff h, props_geo_iff h, props_url_iff h, props_contact_iff h⟩

/-- C4 amended witness: on `recC4` the url conjunct concretely produces
the empty link's property. -/
theorem c4_amended_witness : ("url", PropValue.str "") ∈ evC4.props := by
  have h := c4_amended_optional_properties dt0 idUrl recC4 evC4 (by rfl)
  exact (h.2.2.2.2.2.2.2.2.2.1 (PropValue.str "")).mpr ⟨"", by decide, rfl⟩

/-- `filter(None, parts)` drops `None` and the empty string alike, so the
joined contact string depends only on the three parts with `None` read as
the empty string. -/
theorem format_contact_parts (c : Contact) :
    format_contact c = pyJoin ", "
      (([c.contact_name.getD "", c.organisation.getD "", c.contact_email.getD ""]).filter
        (fun s => s ≠ "")) := by
  rcases c with ⟨p, o, n, e⟩
  rcases o with _ | o <;> rcases n with _ | n <;> rcases e with _ | e <;>
    simp [format_contact, List.filterMap, List.filter]

/-- C7: the contact string joins resolved name, organisation and resolved
email with a comma separator, dropping every empty or absent part (all
eight presence combinations are listed, showing there is never a leading,
trailing or doubled separator, and the all-absent case gives the empty
string); only contacts whose `public` flag is true ever contribute a
contact property; and the Jane Doe example yields exactly
"Jane Doe, jane@x.com". -/
theorem c7_contact_join_and_public_only (c : Contact) :
    ((c.contact_name.getD "" ≠ "" → c.organisation.getD "" ≠ "" →
        c.contact_email.getD "" ≠ "" →
      format_contact c = c.contact_name.getD "" ++ ", " ++ c.organisation.getD ""
        ++ ", " ++ c.contact_email.getD "") ∧
     (c.contact_name.getD "" ≠ "" → c.organisation.getD "" ≠ "" →
        c.contact_email.getD "" = "" →
      format_contact c = c.contact_name.getD "" ++ ", " ++ c.organisation.getD "") ∧
     (c.contact_name.getD "" ≠ "" → c.organisation.getD "" = "" →
        c.contact_email.getD "" ≠ "" →
      format_contact c = c.contact_name.getD "" ++ ", " ++ c.contact_email.getD "") ∧
     (c.contact_name.getD "" ≠ "" → c.organisation.getD "" = "" →
        c.contact_email.getD "" = "" →
      format_contact c = c.contact_name.getD "") ∧
     (c.contact_name.getD "" = "" → c.organisation.getD "" ≠ "" →
        c.contact_email.getD "" ≠ "" →
      format_contact c = c.organisation.getD "" ++ ", " ++ c.contact_email.getD "") ∧
     (c.contact_name.getD "" = "" → c.organisation.getD "" ≠ "" →
        c.contact_email.getD "" = "" →
      format_contact c = c.organisation.getD "") ∧
     (c.contact_name.getD "" = "" → c.organisation.getD "" = "" →
        c.contact_email.getD "" ≠ "" →
      format_contact c = c.contact_email.getD "") ∧
     (c.contact_name.getD "" = "" → c.organisation.getD "" = "" →
        c.contact_email.getD "" = "" →
      format_contact c = "")) ∧
    (∀ (now : DateTime) (urlFor : String → String) (item : EventRecord) (ev : ICalEvent)
        (v : PropValue),
      iCalFormatter.format_event now urlFor item = Except.ok ev → ("contact", v) ∈ ev.props →
      ∃ cc ∈ (item.event.getD emptyEventInfo).event_contact_info.getD [],
        cc.public.getD false = true ∧ v = PropValue.str (format_contact cc)) ∧
    format_contact janeDoe = "Jane Doe, jane@x.com" := by
  have hparts := format_contact_parts c
  refine ⟨⟨?_, ?_, ?_, ?_, ?_, ?_, ?_, ?_⟩, ?_, ?_⟩
  · intro h1 h2 h3; rw [hparts]; simp [List.filter, h1, h2, h3, pyJoin]
  · intro h1 h2 h3; rw [hparts]; simp [List.filter, h1, h2, h3, pyJoin]
  · intro h1 h2 h3; rw [hparts]; simp [List.filter, h1, h2, h3, pyJoin]
  · intro h1 h2 h3; rw [hparts]; simp [List.filter, h1, h2, h3, pyJoin]
  · intro h1 h2 h3; rw [hparts]; simp [List.filter, h1, h2, h3, pyJoin]
  · intro h1 h2 h3; rw [hparts]; simp [List.filter, h1, h2, h3, pyJoin]
  · intro h1 h2 h3; rw [hparts]; simp [List.filter, h1, h2, h3, pyJoin]
  · intro h1 h2 h3; rw [hparts]; simp [List.filter, h1, h2, h3, pyJoin]
  · intro now urlFor item ev v hok hv
    exact (props_contact_iff hok v).mp hv
  · decide

/-- C7 witness: the Jane Doe contact takes the name-present,
organisation-empty, email-present branch. -/
theorem c7_witness : format_contact janeDoe = "Jane Doe" ++ ", " ++ "jane@x.com" :=
  (c7_contact_join_and_public_only janeDoe).1.2.2.1 (by decide) (by decide) (by decide)

/-- C8: in every successful event a location entry's name and coordinate
pair are handled independently — a truthy name always contributes a
LOCATION property and a GEO pair appears exactly when both `location.lat`
and `location.lon` resolve — and on the concrete entry
`{"name":"HQ","location":{"lat":1.0}}` the output has LOCATION HQ and no
GEO property. -/
theorem c8_location_name_geo_independent :
    (∀ (now : DateTime) (urlFor : String → String) (item : EventRecord) (ev : ICalEvent),
      iCalFormatter.format_event now urlFor item = Except.ok ev →
      ∀ v, (("location", v) ∈ ev.props ↔
          ∃ loc ∈ item.location.getD [],
            ∃ s, loc.name = some s ∧ s ≠ "" ∧ v = PropValue.str s) ∧
        (("geo", v) ∈ ev.props ↔
          ∃ loc ∈ item.location.getD [], ∃ c la lo, loc.location = some c ∧
            c.lat = some la ∧ c.lon = some lo ∧ v = PropValue.geoPair la lo)) ∧
    ("location", PropValue.str "HQ") ∈ evC8.props ∧
    ∀ v, ("geo", v) ∉ evC8.props := by
  refine ⟨?_, ?_, ?_⟩
  · intro now urlFor item ev hok v
    exact ⟨props_location_iff hok v, props_geo_iff hok v⟩
  · decide
  · intro v hv
    have hall : evC8.props.all (fun p => p.1 != "geo") = true := by decide
    have := List.all_eq_true.mp hall _ hv
    simp at this

/-- C8 witness: `recC8` in fact formats to `evC8` (so the membership
facts above speak about a produced output), and its location list is the
claim's example entry. -/
theorem c8_witness :
    iCalFormatter.format_event dt0 idUrl recC8 = Except.ok evC8 ∧
    ("location", PropValue.str "HQ") ∈ evC8.props :=
  ⟨by rfl, (c8_location_name_geo_independent).2.1⟩
